import Mathlib

/-!
# portal_daemon — verification of the connectivity-monitoring core

Shallow embedding of `src/main.rs` (the `portal_daemon` Rust program).
The stateful parts are modelled by explicit state passing:

* the pause marker file `/tmp/portal.pause` is an `Option String`
  (`none` = file absent, `some c` = file present with content `c`);
* wall-clock time is a `Nat` (seconds since the Unix epoch), supplied at
  each point the code calls `SystemTime::now()`;
* the outcomes of spawned processes (`ping`, `rtcwake`) are supplied as
  `Except Unit _` values: `.error ()` models `Command::status()` itself
  failing (tool missing / spawn error), `.ok v` models a completed process.

One iteration of the daemon loop (the `loop` body of `run_daemon`) is the pure
function `runIter`, which records every observable action of the
iteration: how many probes ran, how many suspend invocations happened,
the blocking sleeps in order, and the pause-marker state afterwards.
-/

namespace PortalDaemon

/-- The `Language` enum of the Rust source. -/
inductive Language where
  | En : Language
  | Ru : Language
deriving DecidableEq, Repr

/-- The `PortalConfig` struct of the Rust source (field for field). -/
structure PortalConfig where
  language : Language
  lighthouse_ip : String
  target_ssid : String
  sleep_minutes : Nat
  grace_period_sec : Nat
  wakeup_wait_sec : Nat
  scan_interval_sec : Nat
deriving DecidableEq, Repr

/-- The `impl Default for PortalConfig` block of the source. -/
def PortalConfig.defaultConfig : PortalConfig where
  language := .En
  lighthouse_ip := "192.168.1.1"
  target_ssid := "Unknown"
  sleep_minutes := 60
  grace_period_sec := 300
  wakeup_wait_sec := 30
  scan_interval_sec := 60

/-- Value of one decimal digit list, most significant first
(accumulator form, as `str::parse` folds left over the digits). -/
def digitsVal (cs : List Char) : Nat :=
  cs.foldl (fun a c => a * 10 + (c.toNat - 48)) 0

/-- Rust `str::parse::<u64>()` on an already-trimmed string: an optional
leading `+`, then one or more ASCII decimal digits, and the value must
fit in 64 bits; anything else is a parse error. -/
def parseU64core (cs : List Char) : Option Nat :=
  let ds := match cs with
    | '+' :: rest => rest
    | other => other
  if ds ≠ [] ∧ ds.all Char.isDigit then
    if digitsVal ds < 2 ^ 64 then some (digitsVal ds) else none
  else none

/-- Rust `str::trim()` on the character list of a string: strip leading
and trailing whitespace. -/
def trimChars (cs : List Char) : List Char :=
  ((cs.dropWhile Char.isWhitespace).reverse.dropWhile Char.isWhitespace).reverse

/-- Model of `c.trim().parse::<u64>()` as used in `check_pause`. -/
def parseU64 (s : String) : Option Nat :=
  parseU64core (trimChars s.data)

/-- The function `check_pause()` of the source, as a function of the marker-file state
and the current time.  Returns the boolean result together with the
marker-file state after the call (the delete side effects of the code are
the transitions to `none`):

```rust
fn check_pause() -> bool {
    if Path::new(PAUSE_FILE).exists() {
        if let Ok(c) = fs::read_to_string(PAUSE_FILE) {
            if let Ok(end) = c.trim().parse::<u64>() {
                let now = ...as_secs();
                if now < end { return true; }
                else { fs::remove_file(PAUSE_FILE).ok(); return false; }
            }
        }
        fs::remove_file(PAUSE_FILE).ok();
    }
    false
}
```
-/
def check_pause (marker : Option String) (now : Nat) : Bool × Option String :=
  match marker with
  | none => (false, none)
  | some c =>
    match parseU64 c with
    | some e => if now < e then (true, some c) else (false, none)
    | none => (false, none)

/-- The "resume" branch of `run_control_menu` (`fs::remove_file(PAUSE_FILE).ok()`):
removes the marker if present; on an absent marker `remove_file` errors and
`.ok()` discards the error, so it is a no-op. -/
def clearPause (marker : Option String) : Option String :=
  match marker with
  | some _ => none
  | none => none

/-- The "pause" branch of `run_control_menu`:
`fs::write(PAUSE_FILE, (now + mins*60).to_string())`. -/
def setPause (now mins : Nat) : Option String :=
  some (toString (now + mins * 60))

set_option linter.unusedVariables false in
/-- The function `check_ping(ip)` of the source. `statusResult` is the outcome of
`Command::new("ping")...status()`: `.error ()` if the process could not be
run at all, `.ok b` if it ran and `b = s.success()` (exit status zero —
covering timeouts and routing failures, where ping exits non-zero):

```rust
Command::new("ping").args(["-c","1","-W","2", ip])...status()
    .map(|s| s.success()).unwrap_or(false)
```
The result depends only on the process outcome, never aborts. -/
def check_ping (ip : String) (statusResult : Except Unit Bool) : Bool :=
  match statusResult with
  | .ok b => b
  | .error _ => false

/-- Observable record of one `enter_hibernation` call. -/
structure HibResult where
  /-- the privilege-elevation prefix chosen (`"doas"` or `"sudo"`) -/
  cmd : String
  /-- the wake-after seconds passed to `rtcwake -s` -/
  argSeconds : Nat
  /-- whether the call reported success (`s.success()`) -/
  ok : Bool
  /-- blocking sleeps performed inside the call, in seconds -/
  extraSleeps : List Nat
deriving DecidableEq, Repr

/-- The function `enter_hibernation(seconds)` of the source.  `doasExists` is
`Path::new(DOAS_CONF).exists()` evaluated at this call; `statusResult` is
the outcome of running the privileged command (`.ok code` = the process
ran and exited with status `code`, `.error ()` = it could not be run):

```rust
let priv_cmd = if Path::new(DOAS_CONF).exists() { "doas" } else { "sudo" };
let status_result = Command::new(priv_cmd)
    .args(["rtcwake", "-m", "mem", "-s", &seconds.to_string()]).status();
if let Ok(s) = status_result { if s.success() { ...; return; } }
eprintln!("❌ Error: rtcwake failed.");
thread::sleep(Duration::from_secs(60));
```
-/
def enter_hibernation (doasExists : Bool) (statusResult : Except Unit Nat)
    (seconds : Nat) : HibResult :=
  let priv_cmd := if doasExists then "doas" else "sudo"
  match statusResult with
  | .ok code =>
    if code = 0 then
      { cmd := priv_cmd, argSeconds := seconds, ok := true, extraSleeps := [] }
    else
      { cmd := priv_cmd, argSeconds := seconds, ok := false, extraSleeps := [60] }
  | .error _ =>
    { cmd := priv_cmd, argSeconds := seconds, ok := false, extraSleeps := [60] }

/-- The environment one loop iteration interacts with: the wall-clock
times at the two possible `check_pause` calls, the raw process outcomes
of the two possible `check_ping` calls and of the `rtcwake` invocation,
and whether `/etc/doas.conf` exists when `enter_hibernation` probes it. -/
structure Env where
  now1 : Nat
  now2 : Nat
  ping1 : Except Unit Bool
  ping2 : Except Unit Bool
  hibStatus : Except Unit Nat
  doasExists : Bool
  /-- An out-of-process Control Action may rewrite (`fs::write`) or remove
  the pause marker while the Supervisor sleeps out the grace period:
  `some w` sets the marker file to state `w` during that sleep, `none`
  means no concurrent control action ran. -/
  writeDuringGrace : Option (Option String)
deriving Repr

/-- Marker-file state right after the grace-period sleep: the state the
first `check_pause` left (`m1`), unless a concurrent Control Action
rewrote the file during the sleep. -/
def graceMarker (env : Env) (m1 : Option String) : Option String :=
  match env.writeDuringGrace with
  | some w => w
  | none => m1

/-- Everything observable about one iteration of the daemon loop. -/
structure IterResult where
  /-- number of `check_ping` invocations in the iteration -/
  probes : Nat
  /-- the `enter_hibernation` calls made (each one `rtcwake` invocation) -/
  suspendCalls : List HibResult
  /-- blocking `thread::sleep` durations in order, in seconds -/
  sleeps : List Nat
  /-- pause-marker state when the iteration ends -/
  marker : Option String
deriving DecidableEq, Repr

/-- One iteration of the `loop` of `run_daemon` (lines 373-397 of the source),
as a pure function of the configuration, the environment and the
pause-marker state at iteration start:

```rust
loop {
    if check_pause() {
        thread::sleep(Duration::from_secs(cfg.scan_interval_sec));
        continue;
    }
    if check_ping(&cfg.lighthouse_ip) {
        thread::sleep(Duration::from_secs(cfg.scan_interval_sec));
    } else {
        println!(...); thread::sleep(Duration::from_secs(cfg.grace_period_sec));
        if check_pause() { continue; }
        if check_ping(&cfg.lighthouse_ip) {
            println!(...);
        } else {
            println!(...);
            enter_hibernation(sleep_seconds);      // sleep_seconds = cfg.sleep_minutes * 60
            println!(...);
            thread::sleep(Duration::from_secs(cfg.wakeup_wait_sec));
        }
    }
}
```
-/
def runIter (cfg : PortalConfig) (env : Env) (marker : Option String) :
    IterResult :=
  if (check_pause marker env.now1).1 then
    { probes := 0, suspendCalls := [], sleeps := [cfg.scan_interval_sec],
      marker := (check_pause marker env.now1).2 }
  else if check_ping cfg.lighthouse_ip env.ping1 then
    { probes := 1, suspendCalls := [], sleeps := [cfg.scan_interval_sec],
      marker := (check_pause marker env.now1).2 }
  else if (check_pause (graceMarker env (check_pause marker env.now1).2)
      env.now2).1 then
    { probes := 1, suspendCalls := [], sleeps := [cfg.grace_period_sec],
      marker := (check_pause (graceMarker env (check_pause marker env.now1).2)
        env.now2).2 }
  else if check_ping cfg.lighthouse_ip env.ping2 then
    { probes := 2, suspendCalls := [], sleeps := [cfg.grace_period_sec],
      marker := (check_pause (graceMarker env (check_pause marker env.now1).2)
        env.now2).2 }
  else
    { probes := 2,
      suspendCalls := [enter_hibernation env.doasExists env.hibStatus
        (cfg.sleep_minutes * 60)],
      sleeps := [cfg.grace_period_sec]
        ++ (enter_hibernation env.doasExists env.hibStatus
          (cfg.sleep_minutes * 60)).extraSleeps
        ++ [cfg.wakeup_wait_sec],
      marker := (check_pause (graceMarker env (check_pause marker env.now1).2)
        env.now2).2 }

/-- The function `load_config_safe()` of the source.  The configuration file is
modelled as `none` (absent) or `some none` (present but `serde_json`
fails to parse it) or `some (some c)` (present and parsing to `c`):

```rust
fn load_config_safe() -> Result<PortalConfig, ()> {
    if let Ok(d) = fs::read_to_string(CONFIG_FILE) {
        if let Ok(c) = serde_json::from_str(&d) { return Ok(c); }
    }
    Err(())
}
```
-/
def load_config_safe (file : Option (Option PortalConfig)) :
    Except Unit PortalConfig :=
  match file with
  | some (some c) => .ok c
  | some none => .error ()
  | none => .error ()

/-- How a (non-`--install`, non-`--off`) invocation of `main` proceeds. -/
inductive StartPath where
  /-- the call `std::process::exit(1)` because the wizard needs root -/
  | exitNoRoot : StartPath
  /-- the wizard `run_interactive_wizard()` is entered (then the daemon runs on its
  result) -/
  | wizard : StartPath
  /-- the loop `run_daemon(cfg)` is entered directly with `cfg` -/
  | daemon (cfg : PortalConfig) : StartPath
deriving DecidableEq, Repr

/-- Step 3 of `main` (lines 88–107 of the source): which path startup
takes, as a function of the `--configure` flag, the configuration-file
state and whether the process runs as root:

```rust
let config = if args.configure || !Path::new(CONFIG_FILE).exists() {
    if !is_root() { ...; std::process::exit(1); }
    run_interactive_wizard()
} else {
    load_config_safe().unwrap_or_default()
};
run_daemon(config);
```
-/
def mainStart (configureFlag : Bool) (file : Option (Option PortalConfig))
    (isRoot : Bool) : StartPath :=
  if configureFlag || !file.isSome then
    if !isRoot then .exitNoRoot else .wizard
  else
    match load_config_safe file with
    | .ok c => .daemon c
    | .error _ => .daemon PortalConfig.defaultConfig

end PortalDaemon

namespace PortalDaemon

/-- Reading an absent marker does nothing and reports no pause. -/
theorem check_pause_absent (now : Nat) : check_pause none now = (false, none) := rfl

/-- Whenever a pause read reports no pause, the marker is gone afterwards
(it was absent, or the read deleted it). -/
theorem check_pause_false_marker (m : Option String) (now : Nat)
    (h : (check_pause m now).1 = false) : (check_pause m now).2 = none := by
  cases m with
  | none => rfl
  | some c =>
    simp only [check_pause] at h ⊢
    cases hp : parseU64 c with
    | none => simp
    | some e =>
      simp only [hp] at h ⊢
      by_cases hlt : now < e
      · simp [hlt] at h
      · simp [hlt]

/-- Whenever a pause read reports an active pause, the marker is untouched. -/
theorem check_pause_true_marker (m : Option String) (now : Nat)
    (h : (check_pause m now).1 = true) : (check_pause m now).2 = m := by
  cases m with
  | none => simp [check_pause] at h
  | some c =>
    simp only [check_pause] at h ⊢
    cases hp : parseU64 c with
    | none => simp [hp] at h
    | some e =>
      simp only [hp] at h ⊢
      by_cases hlt : now < e
      · simp [hlt]
      · simp [hlt] at h

/-- The pause read reports an active pause exactly for a parsable,
strictly-future expiry. -/
theorem check_pause_true_iff (m : Option String) (now : Nat) :
    (check_pause m now).1 = true ↔
      ∃ c e, m = some c ∧ parseU64 c = some e ∧ now < e := by
  cases m with
  | none => simp [check_pause]
  | some c =>
    simp only [check_pause]
    cases hp : parseU64 c with
    | none => simp [hp]
    | some e =>
      by_cases hlt : now < e
      · simp [hlt, hp]
      · simp [hlt, hp]

/-- The pause read reports no pause exactly when the marker is absent,
unparsable, or holds an expiry at or before now. -/
theorem check_pause_false_iff (m : Option String) (now : Nat) :
    (check_pause m now).1 = false ↔
      m = none ∨ (∃ c, m = some c ∧ parseU64 c = none) ∨
      (∃ c e, m = some c ∧ parseU64 c = some e ∧ e ≤ now) := by
  cases m with
  | none => simp [check_pause]
  | some c =>
    simp only [check_pause]
    cases hp : parseU64 c with
    | none => simp [hp]
    | some e =>
      by_cases hlt : now < e
      · simp [hlt, hp]
      · simp [hlt, hp]
        omega

/-- On successful hibernation there is no extra sleep; on failure the
fixed 60-second cooldown is slept inside the call. -/
theorem enter_hibernation_extraSleeps (d : Bool) (r : Except Unit Nat)
    (s : Nat) :
    ((enter_hibernation d r s).ok = true →
      (enter_hibernation d r s).extraSleeps = []) ∧
    ((enter_hibernation d r s).ok = false →
      (enter_hibernation d r s).extraSleeps = [60]) := by
  cases r with
  | error e => simp [enter_hibernation]
  | ok code =>
    by_cases hc : code = 0
    · simp [enter_hibernation, hc]
    · simp [enter_hibernation, hc]

/-- C1: in any iteration of the daemon loop, whenever the pause check at the
start of the cycle reports an active, non-expired window, the Supervisor
makes no probe call and no suspend call in that cycle — it only sleeps the
poll interval and restarts; and more generally a suspend call can only
happen in an iteration in which both pause reads (cycle start, and
mid-grace) reported no active window. -/
theorem c1_no_suspend_during_pause (cfg : PortalConfig) (env : Env)
    (m : Option String) :
    ((check_pause m env.now1).1 = true →
      runIter cfg env m =
        { probes := 0, suspendCalls := [],
          sleeps := [cfg.scan_interval_sec],
          marker := (check_pause m env.now1).2 }) ∧
    ((runIter cfg env m).suspendCalls ≠ [] →
      (check_pause m env.now1).1 = false ∧
      (check_pause (graceMarker env (check_pause m env.now1).2)
        env.now2).1 = false) := by
  constructor
  · intro h
    simp [runIter, h]
  · intro h
    cases h1 : (check_pause m env.now1).1 with
    | true => simp [runIter, h1] at h
    | false =>
      refine ⟨rfl, ?_⟩
      cases hpg : check_ping cfg.lighthouse_ip env.ping1 with
      | true => simp [runIter, h1, hpg] at h
      | false =>
        cases h2 : (check_pause (graceMarker env (check_pause m env.now1).2)
            env.now2).1 with
        | true => simp [runIter, h1, hpg, h2] at h
        | false => rfl

/-- C2: if the first probe of an iteration fails and the re-probe after the
grace sleep would fail too, then: when the pause check run between the two
probes reports an active pause the cycle is abandoned with no suspend call
(and the second probe never runs); otherwise exactly one suspend call is
made in that iteration. -/
theorem c2_double_failure_suspends_once (cfg : PortalConfig) (env : Env)
    (m : Option String)
    (h1 : (check_pause m env.now1).1 = false)
    (hp1 : check_ping cfg.lighthouse_ip env.ping1 = false)
    (hp2 : check_ping cfg.lighthouse_ip env.ping2 = false) :
    ((check_pause (graceMarker env (check_pause m env.now1).2) env.now2).1
        = true →
      (runIter cfg env m).suspendCalls = [] ∧
      (runIter cfg env m).probes = 1) ∧
    ((check_pause (graceMarker env (check_pause m env.now1).2) env.now2).1
        = false →
      (runIter cfg env m).suspendCalls =
        [enter_hibernation env.doasExists env.hibStatus
          (cfg.sleep_minutes * 60)] ∧
      (runIter cfg env m).suspendCalls.length = 1) := by
  constructor <;> intro h2 <;> simp [runIter, h1, hp1, hp2, h2]

/-- C3: a single transient loss — first probe false, grace re-probe true in
the same iteration — never results in a suspend call; the iteration ends
after the grace sleep and the loop returns to normal polling. -/
theorem c3_transient_loss_no_suspend (cfg : PortalConfig) (env : Env)
    (m : Option String)
    (h1 : (check_pause m env.now1).1 = false)
    (hp1 : check_ping cfg.lighthouse_ip env.ping1 = false)
    (h2 : (check_pause (graceMarker env (check_pause m env.now1).2)
      env.now2).1 = false)
    (hp2 : check_ping cfg.lighthouse_ip env.ping2 = true) :
    (runIter cfg env m).suspendCalls = [] ∧
    (runIter cfg env m).probes = 2 ∧
    (runIter cfg env m).sleeps = [cfg.grace_period_sec] := by
  simp [runIter, h1, hp1, h2, hp2]

/-- C4: the pause read reports no pause exactly when the marker is absent,
its content fails integer parsing, or the stored expiry is at or before
now; in every no-pause case the marker is gone after the read (absent
already, or deleted as a side effect); it reports the active pause exactly
for a parsable, strictly-future expiry; and a cycle whose initial pause
read reports no pause (including the freshly-expired case) proceeds to
normal probing in that same cycle. -/
theorem c4_pause_read_contract (m : Option String) (now : Nat)
    (cfg : PortalConfig) (env : Env) :
    ((check_pause m now).1 = false ↔
      m = none ∨ (∃ c, m = some c ∧ parseU64 c = none) ∨
      (∃ c e, m = some c ∧ parseU64 c = some e ∧ e ≤ now)) ∧
    ((check_pause m now).1 = false → (check_pause m now).2 = none) ∧
    ((check_pause m now).1 = true ↔
      ∃ c e, m = some c ∧ parseU64 c = some e ∧ now < e) ∧
    ((check_pause m env.now1).1 = false → 1 ≤ (runIter cfg env m).probes) := by
  refine ⟨check_pause_false_iff m now, check_pause_false_marker m now,
    check_pause_true_iff m now, ?_⟩
  intro h1
  cases hpg : check_ping cfg.lighthouse_ip env.ping1 with
  | true => simp [runIter, h1, hpg]
  | false =>
    cases h2 : (check_pause (graceMarker env (check_pause m env.now1).2)
        env.now2).1 with
    | true => simp [runIter, h1, hpg, h2]
    | false =>
      cases hp2 : check_ping cfg.lighthouse_ip env.ping2 with
      | true => simp [runIter, h1, hpg, h2, hp2]
      | false => simp [runIter, h1, hpg, h2, hp2]

/-- C6: each suspend invocation chooses its privilege-elevation prefix as a
pure function of whether the doas configuration file exists at that call
(doas if it exists, sudo otherwise — nothing else enters the choice), it
passes the requested wake-after seconds through unchanged, and it reports
success exactly when the privileged command ran and exited with status
zero. -/
theorem c6_suspend_invoker_contract (d : Bool) (r : Except Unit Nat)
    (s : Nat) :
    (enter_hibernation d r s).cmd = (if d then "doas" else "sudo") ∧
    (enter_hibernation d r s).argSeconds = s ∧
    ((enter_hibernation d r s).ok = true ↔ r = Except.ok 0) := by
  refine ⟨?_, ?_, ?_⟩ <;>
    cases r with
    | error e => simp [enter_hibernation]
    | ok code =>
      by_cases hc : code = 0 <;> simp [enter_hibernation, hc]

/-- C7: in an iteration that reaches a suspend invocation, exactly one
suspend call is made (no immediate retry), the cycle always ends by
sleeping the configured wake-settle duration last, and on a failed
invocation the fixed 60-second cooldown is additionally slept (between the
invocation and the wake-settle sleep); the iteration completes normally
either way. -/
theorem c7_post_suspend_wait (cfg : PortalConfig) (env : Env)
    (m : Option String)
    (h1 : (check_pause m env.now1).1 = false)
    (hp1 : check_ping cfg.lighthouse_ip env.ping1 = false)
    (h2 : (check_pause (graceMarker env (check_pause m env.now1).2)
      env.now2).1 = false)
    (hp2 : check_ping cfg.lighthouse_ip env.ping2 = false) :
    (runIter cfg env m).suspendCalls.length = 1 ∧
    (runIter cfg env m).sleeps.getLast? = some cfg.wakeup_wait_sec ∧
    ((enter_hibernation env.doasExists env.hibStatus
        (cfg.sleep_minutes * 60)).ok = true →
      (runIter cfg env m).sleeps =
        [cfg.grace_period_sec, cfg.wakeup_wait_sec]) ∧
    ((enter_hibernation env.doasExists env.hibStatus
        (cfg.sleep_minutes * 60)).ok = false →
      (runIter cfg env m).sleeps =
        [cfg.grace_period_sec, 60, cfg.wakeup_wait_sec]) := by
  have hrun : runIter cfg env m =
      { probes := 2,
        suspendCalls := [enter_hibernation env.doasExists env.hibStatus
          (cfg.sleep_minutes * 60)],
        sleeps := [cfg.grace_period_sec]
          ++ (enter_hibernation env.doasExists env.hibStatus
            (cfg.sleep_minutes * 60)).extraSleeps
          ++ [cfg.wakeup_wait_sec],
        marker := (check_pause (graceMarker env (check_pause m env.now1).2)
          env.now2).2 } := by
    simp [runIter, h1, hp1, h2, hp2]
  refine ⟨by simp [hrun], ?_, ?_, ?_⟩
  · have hs : (runIter cfg env m).sleeps =
        (cfg.grace_period_sec :: (enter_hibernation env.doasExists
          env.hibStatus (cfg.sleep_minutes * 60)).extraSleeps)
          ++ [cfg.wakeup_wait_sec] := by
      simp [hrun]
    rw [hs, List.getLast?_append_cons]
    rfl
  · intro hok
    have he := (enter_hibernation_extraSleeps env.doasExists env.hibStatus
      (cfg.sleep_minutes * 60)).1 hok
    simp [hrun, he]
  · intro hfail
    have he := (enter_hibernation_extraSleeps env.doasExists env.hibStatus
      (cfg.sleep_minutes * 60)).2 hfail
    simp [hrun, he]

/-- C8: pause reads are idempotent after expiry — reading an absent marker
reports no pause and changes nothing, and after any read that reported no
pause (expired, unparsable or absent marker) every subsequent read again
reports no pause and performs no further change; clearing removes a
present marker and is a no-op on an absent one. -/
theorem c8_expired_reads_idempotent (m : Option String) (now later : Nat) :
    check_pause none now = (false, none) ∧
    ((check_pause m now).1 = false →
      check_pause (check_pause m now).2 later = (false, none)) ∧
    (∀ c, clearPause (some c) = none) ∧
    clearPause none = none ∧
    clearPause (clearPause m) = clearPause m := by
  refine ⟨rfl, ?_, fun c => rfl, rfl, ?_⟩
  · intro h
    rw [check_pause_false_marker m now h]
    rfl
  · cases m <;> rfl

/-- C9: no per-cycle failure aborts the loop — a probe whose process could
not even be spawned, and a probe whose process exited non-zero (timeout or
routing failure), both yield `false` rather than an error; a corrupt pause
marker is absorbed by deletion and reported as no pause; and every
iteration of the loop, for every environment (including one where all
spawned processes fail), completes and ends in a scheduled wait. -/
theorem c9_cycle_errors_absorbed (cfg : PortalConfig) (env : Env)
    (m : Option String) (ip c : String) (now : Nat) :
    check_ping ip (Except.error ()) = false ∧
    check_ping ip (Except.ok false) = false ∧
    (parseU64 c = none → check_pause (some c) now = (false, none)) ∧
    (runIter cfg env m).sleeps ≠ [] := by
  refine ⟨rfl, rfl, ?_, ?_⟩
  · intro h
    simp [check_pause, h]
  · cases h1 : (check_pause m env.now1).1 with
    | true => simp [runIter, h1]
    | false =>
      cases hpg : check_ping cfg.lighthouse_ip env.ping1 with
      | true => simp [runIter, h1, hpg]
      | false =>
        cases h2 : (check_pause (graceMarker env (check_pause m env.now1).2)
            env.now2).1 with
        | true => simp [runIter, h1, hpg, h2]
        | false =>
          cases hp2 : check_ping cfg.lighthouse_ip env.ping2 with
          | true => simp [runIter, h1, hpg, h2, hp2]
          | false => simp [runIter, h1, hpg, h2, hp2]

/-- C10: a pause read that reports an active pause leaves the marker file
exactly as it was — no deletion and no rewrite; conversely, any read that
changes the marker state is one that reported no pause. -/
theorem c10_active_read_is_frame (m : Option String) (now : Nat) :
    ((check_pause m now).1 = true → (check_pause m now).2 = m) ∧
    ((check_pause m now).2 ≠ m → (check_pause m now).1 = false) := by
  refine ⟨check_pause_true_marker m now, ?_⟩
  intro hne
  cases h : (check_pause m now).1 with
  | false => rfl
  | true => exact absurd (check_pause_true_marker m now h) hne

/-- C5 counterexample: with the configuration document present but corrupt
(it exists and fails to parse), no `--configure` flag and a root process,
startup does not take the wizard path and is not fatal — the daemon loop
is entered with the built-in default configuration. -/
theorem c5_corrupt_config_counterexample :
    mainStart false (some none) true =
      StartPath.daemon PortalConfig.defaultConfig ∧
    mainStart false (some none) true ≠ StartPath.wizard := by
  constructor
  · rfl
  · decide

/-- C5 (amended): absence of the configuration document (without
`--configure`) does route startup away from the daemon — to the wizard,
or to a fatal permission exit when not root. A present-but-corrupt
document, however, does not trigger the wizard and is not fatal: the
Supervisor enters the daemon loop with the built-in default
configuration. In every case the loop is only ever entered with either
the successfully parsed document or that default — never with the
malformed document itself. -/
theorem c5_config_startup_paths (isRoot : Bool)
    (file : Option (Option PortalConfig)) :
    (mainStart false none isRoot =
      if isRoot then StartPath.wizard else StartPath.exitNoRoot) ∧
    (mainStart false (some none) isRoot =
      StartPath.daemon PortalConfig.defaultConfig) ∧
    (∀ c, mainStart false (some (some c)) isRoot = StartPath.daemon c) ∧
    (∀ c, mainStart false file isRoot = StartPath.daemon c →
      file = some (some c) ∨ c = PortalConfig.defaultConfig) := by
  refine ⟨?_, ?_, ?_, ?_⟩
  · cases isRoot <;> simp [mainStart]
  · simp [mainStart, load_config_safe]
  · intro c
    simp [mainStart, load_config_safe]
  · intro c h
    cases file with
    | none => simp [mainStart] at h; cases isRoot <;> simp_all
    | some inner =>
      cases inner with
      | none =>
        simp [mainStart, load_config_safe] at h
        exact Or.inr h.symm
      | some c₂ =>
        simp [mainStart, load_config_safe] at h
        exact Or.inl (by rw [h])

/-- Witness for C1: a concrete cycle starting with an active pause (marker
expiry 1000, clock at 5) performs no probe and no suspend, sleeps only the
poll interval. -/
theorem c1_witness :
    runIter PortalConfig.defaultConfig
      { now1 := 5, now2 := 6, ping1 := Except.ok true,
        ping2 := Except.ok true, hibStatus := Except.ok 0,
        doasExists := false, writeDuringGrace := none }
      (some "1000") =
      { probes := 0, suspendCalls := [],
        sleeps := [PortalConfig.defaultConfig.scan_interval_sec],
        marker := (check_pause (some "1000") 5).2 } :=
  (c1_no_suspend_during_pause _ _ _).1 (by decide)

/-- Witness for C2: with both probes failing and no pause, a concrete cycle
makes exactly one suspend call; with a pause written during the grace
sleep, a concrete cycle is abandoned with no suspend call. -/
theorem c2_witness :
    ((runIter PortalConfig.defaultConfig
      { now1 := 0, now2 := 0, ping1 := Except.ok false,
        ping2 := Except.ok false, hibStatus := Except.ok 0,
        doasExists := false, writeDuringGrace := none }
      none).suspendCalls =
        [enter_hibernation false (Except.ok 0)
          (PortalConfig.defaultConfig.sleep_minutes * 60)] ∧
     (runIter PortalConfig.defaultConfig
      { now1 := 0, now2 := 0, ping1 := Except.ok false,
        ping2 := Except.ok false, hibStatus := Except.ok 0,
        doasExists := false, writeDuringGrace := none }
      none).suspendCalls.length = 1) ∧
    ((runIter PortalConfig.defaultConfig
      { now1 := 0, now2 := 5, ping1 := Except.ok false,
        ping2 := Except.ok false, hibStatus := Except.ok 0,
        doasExists := false, writeDuringGrace := some (some "100") }
      none).suspendCalls = [] ∧
     (runIter PortalConfig.defaultConfig
      { now1 := 0, now2 := 5, ping1 := Except.ok false,
        ping2 := Except.ok false, hibStatus := Except.ok 0,
        doasExists := false, writeDuringGrace := some (some "100") }
      none).probes = 1) :=
  ⟨(c2_double_failure_suspends_once _ _ _ (by decide) (by decide)
      (by decide)).2 (by decide),
   (c2_double_failure_suspends_once _ _ _ (by decide) (by decide)
      (by decide)).1 (by decide)⟩

/-- Witness for C3: a concrete transient loss (probe false, grace re-probe
true) ends the cycle with no suspend call. -/
theorem c3_witness :
    (runIter PortalConfig.defaultConfig
      { now1 := 0, now2 := 0, ping1 := Except.ok false,
        ping2 := Except.ok true, hibStatus := Except.ok 0,
        doasExists := false, writeDuringGrace := none }
      none).suspendCalls = [] ∧
    (runIter PortalConfig.defaultConfig
      { now1 := 0, now2 := 0, ping1 := Except.ok false,
        ping2 := Except.ok true, hibStatus := Except.ok 0,
        doasExists := false, writeDuringGrace := none }
      none).probes = 2 ∧
    (runIter PortalConfig.defaultConfig
      { now1 := 0, now2 := 0, ping1 := Except.ok false,
        ping2 := Except.ok true, hibStatus := Except.ok 0,
        doasExists := false, writeDuringGrace := none }
      none).sleeps = [PortalConfig.defaultConfig.grace_period_sec] :=
  c3_transient_loss_no_suspend _ _ _ (by decide) (by decide) (by decide)
    (by decide)

/-- Witness for C4: a marker whose expiry 42 is already past at clock 100 is
deleted by the read, and the same cycle still probes. -/
theorem c4_witness :
    (check_pause (some "42") 100).2 = none ∧
    1 ≤ (runIter PortalConfig.defaultConfig
      { now1 := 100, now2 := 100, ping1 := Except.ok true,
        ping2 := Except.ok true, hibStatus := Except.ok 0,
        doasExists := false, writeDuringGrace := none }
      (some "42")).probes :=
  ⟨(c4_pause_read_contract (some "42") 100 PortalConfig.defaultConfig
      { now1 := 100, now2 := 100, ping1 := Except.ok true,
        ping2 := Except.ok true, hibStatus := Except.ok 0,
        doasExists := false, writeDuringGrace := none }).2.1 (by decide),
   (c4_pause_read_contract (some "42") 100 PortalConfig.defaultConfig
      { now1 := 100, now2 := 100, ping1 := Except.ok true,
        ping2 := Except.ok true, hibStatus := Except.ok 0,
        doasExists := false, writeDuringGrace := none }).2.2.2 (by decide)⟩

/-- Witness for C6: a concrete call with the doas configuration present and
a zero exit chooses doas, passes 600 seconds through, and reports
success. -/
theorem c6_witness :
    (enter_hibernation true (Except.ok 0) 600).cmd =
      (if true then "doas" else "sudo") ∧
    (enter_hibernation true (Except.ok 0) 600).argSeconds = 600 ∧
    ((enter_hibernation true (Except.ok 0) 600).ok = true ↔
      (Except.ok 0 : Except Unit Nat) = Except.ok 0) :=
  c6_suspend_invoker_contract true (Except.ok 0) 600

/-- Witness for C7: a concrete cycle whose suspend invocation fails (exit
status 1) sleeps the grace period, then the 60-second cooldown, then the
wake-settle duration. -/
theorem c7_witness :
    (runIter PortalConfig.defaultConfig
      { now1 := 0, now2 := 0, ping1 := Except.ok false,
        ping2 := Except.ok false, hibStatus := Except.ok 1,
        doasExists := false, writeDuringGrace := none }
      none).sleeps =
      [PortalConfig.defaultConfig.grace_period_sec, 60,
       PortalConfig.defaultConfig.wakeup_wait_sec] :=
  (c7_post_suspend_wait _ _ _ (by decide) (by decide) (by decide)
    (by decide)).2.2.2 (by decide)

/-- Witness for C8: re-reading after the read that deleted an unparsable
marker reports no pause again and changes nothing. -/
theorem c8_witness :
    check_pause (check_pause (some "abc") 5).2 7 = (false, none) :=
  (c8_expired_reads_idempotent (some "abc") 5 7).2.1 (by decide)

/-- Witness for C9: a corrupt marker is absorbed, and a concrete cycle in
which every spawned process fails still ends in a scheduled wait. -/
theorem c9_witness :
    check_pause (some "zz") 3 = (false, none) ∧
    (runIter PortalConfig.defaultConfig
      { now1 := 0, now2 := 0, ping1 := Except.error (),
        ping2 := Except.error (), hibStatus := Except.error (),
        doasExists := false, writeDuringGrace := none }
      none).sleeps ≠ [] :=
  ⟨(c9_cycle_errors_absorbed PortalConfig.defaultConfig
      { now1 := 0, now2 := 0, ping1 := Except.error (),
        ping2 := Except.error (), hibStatus := Except.error (),
        doasExists := false, writeDuringGrace := none }
      none "10.0.0.1" "zz" 3).2.2.1 (by decide),
   (c9_cycle_errors_absorbed PortalConfig.defaultConfig
      { now1 := 0, now2 := 0, ping1 := Except.error (),
        ping2 := Except.error (), hibStatus := Except.error (),
        doasExists := false, writeDuringGrace := none }
      none "10.0.0.1" "zz" 3).2.2.2⟩

/-- Witness for C10: reading an active marker (expiry 50, clock 10) leaves
it in place. -/
theorem c10_witness :
    (check_pause (some "50") 10).2 = some "50" :=
  (c10_active_read_is_frame (some "50") 10).1 (by decide)

/-- Witness for C5 (amended): instantiating the startup-path theorem at the
corrupt-document input shows the entered configuration is the default. -/
theorem c5_witness :
    (some none : Option (Option PortalConfig)) =
      some (some PortalConfig.defaultConfig) ∨
    PortalConfig.defaultConfig = PortalConfig.defaultConfig :=
  (c5_config_startup_paths true (some none)).2.2.2
    PortalConfig.defaultConfig (by decide)

end PortalDaemon
